import Mathlib

/-!
Verification development for the kudu master lifecycle header
(src/kudu/master/master.h) and the client sample program
(src/kudu/client/samples/sample.cc).

The repository ships the master lifecycle as a header only: master.h declares
Init / Start / Shutdown, the accessors ts_manager() / catalog_manager(), and
the private MasterState enum, but the implementation file master.cc is not in
the source tree.  The enum and the declarations are embedded exactly from the
header; the dynamic behaviour of the lifecycle, and the NodeRegistry
(TSManager) contract, are modelled from the specification, as marked on each
definition.  The sample program is embedded directly from sample.cc.
-/

namespace Kudu

/-- The private lifecycle enum of class Master in master.h, lines 54-58.
It has exactly the three values kStopped, kInitialized and kRunning; the
header declares no further value. -/
inductive MasterState
  | kStopped
  | kInitialized
  | kRunning
deriving DecidableEq

/-- Modelled from the spec: master.cc, the implementation of the lifecycle
state machine, is not in the source tree.  Spec section 4.1 gives the states
Stopped, Initialized and Running, plus the terminal ShutDown reachable from
any non-Stopped state. -/
inductive SpecState
  | Stopped
  | Initialized
  | Running
  | ShutDown
deriving DecidableEq

/-- Modelled from the spec: error taxonomy of section 7 restricted to the
classes the lifecycle transitions signal. -/
inductive MasterError
  | InitializationError
  | NotInitializedError
  | BindError
  | IllegalStateError
deriving DecidableEq

/-- The four owned subsystems of section 2: NodeRegistry is TSManager,
CatalogStore is CatalogManager, AdminEndpoints is MasterPathHandlers,
RpcFront is the RPC server. -/
inductive Subsystem
  | NodeRegistry
  | CatalogStore
  | AdminEndpoints
  | RpcFront
deriving DecidableEq

/-- An observable lifecycle side effect: construction or teardown of one
subsystem. -/
inductive LifeEvent
  | construct (s : Subsystem)
  | teardown (s : Subsystem)
deriving DecidableEq

/-- Modelled from the spec: the MasterProcess of section 3, holding the
lifecycle state and, as booleans, whether each owned gscoped_ptr of master.h
(ts_manager_, catalog_manager_, path_handlers_, lines 64-66) currently holds
a constructed object. -/
structure MasterProcess where
  state : SpecState
  ts_manager_ : Bool
  catalog_manager_ : Bool
  path_handlers_ : Bool
deriving DecidableEq

/-- The master as the embedding process constructs it: Stopped, no subsystem
allocated. -/
def initialMaster : MasterProcess := ⟨.Stopped, false, false, false⟩

/-- Modelled from the spec: Init() (master.h line 41; body missing).  Valid
only from Stopped; allocates NodeRegistry, then CatalogStore (whose load from
durable storage may fail, abstracted by the flag catalogOk), then
AdminEndpoints, in that order.  On catalog-load failure the partially
constructed NodeRegistry is torn down before returning, the error is
InitializationError and the state remains Stopped.  On success the state
becomes Initialized.  Returns the new master, the status and the list of
observable construction/teardown events. -/
def initOp (catalogOk : Bool) (m : MasterProcess) :
    MasterProcess × Except MasterError Unit × List LifeEvent :=
  match m.state with
  | .Stopped =>
      if catalogOk then
        (⟨.Initialized, true, true, true⟩, Except.ok (),
         [.construct .NodeRegistry, .construct .CatalogStore,
          .construct .AdminEndpoints])
      else
        (⟨.Stopped, false, false, false⟩, Except.error .InitializationError,
         [.construct .NodeRegistry, .teardown .NodeRegistry])
  | _ => (m, Except.error .IllegalStateError, [])

/-- Modelled from the spec: Start() (master.h line 42; body missing).  Valid
only from Initialized; brings up RpcFront, whose bind may fail (abstracted by
the flag bindOk).  On bind failure the error is BindError and the state
remains Initialized, so Start may be retried.  From Stopped it fails with
NotInitializedError and leaves the state Stopped.  On success the state
becomes Running. -/
def startOp (bindOk : Bool) (m : MasterProcess) :
    MasterProcess × Except MasterError Unit × List LifeEvent :=
  match m.state with
  | .Initialized =>
      if bindOk then
        (⟨.Running, m.ts_manager_, m.catalog_manager_, m.path_handlers_⟩,
         Except.ok (), [.construct .RpcFront])
      else
        (m, Except.error .BindError, [])
  | .Stopped => (m, Except.error .NotInitializedError, [])
  | _ => (m, Except.error .IllegalStateError, [])

/-- Modelled from the spec: Shutdown() (master.h line 43; body missing).
Valid from Initialized or Running, where it tears down RpcFront,
AdminEndpoints, CatalogStore, NodeRegistry - the exact reverse of
construction order - and transitions to the terminal ShutDown; from Stopped
or ShutDown it is an idempotent no-op producing no events. -/
def shutdownOp (m : MasterProcess) : MasterProcess × List LifeEvent :=
  match m.state with
  | .Initialized =>
      (⟨.ShutDown, false, false, false⟩,
       [.teardown .RpcFront, .teardown .AdminEndpoints,
        .teardown .CatalogStore, .teardown .NodeRegistry])
  | .Running =>
      (⟨.ShutDown, false, false, false⟩,
       [.teardown .RpcFront, .teardown .AdminEndpoints,
        .teardown .CatalogStore, .teardown .NodeRegistry])
  | _ => (m, [])

/-- One lifecycle call, with the outcome of its fallible external collaborator
(catalog load for Init, listener bind for Start) as data. -/
inductive LifecycleCall
  | init (catalogOk : Bool)
  | start (bindOk : Bool)
  | shutdown
deriving DecidableEq

/-- One lifecycle transition: dispatch the call to its operation.  Shutdown
returns void in the header, so its status is always ok. -/
def step (m : MasterProcess) (c : LifecycleCall) :
    MasterProcess × Except MasterError Unit × List LifeEvent :=
  match c with
  | .init catalogOk => initOp catalogOk m
  | .start bindOk => startOp bindOk m
  | .shutdown => ((shutdownOp m).1, Except.ok (), (shutdownOp m).2)

/-- Run a sequence of lifecycle calls from a master state. -/
def runCalls (m : MasterProcess) : List LifecycleCall → MasterProcess
  | [] => m
  | c :: cs => runCalls (step m c).1 cs

/-- The structural invariant of the master: the three owned subsystems exist
exactly in the states Initialized and Running, and they exist or are absent
together. -/
def Inv (m : MasterProcess) : Prop :=
  ((m.state = .Initialized ∨ m.state = .Running) ↔ m.ts_manager_ = true) ∧
  m.catalog_manager_ = m.ts_manager_ ∧
  m.path_handlers_ = m.ts_manager_

instance (m : MasterProcess) : Decidable (Inv m) := by
  unfold Inv; infer_instance

/-- Modelled from the spec: the accessor ts_manager() (master.h line 47)
returns the owned TSManager; while no object exists this is a
NotInitializedError-class precondition violation. -/
def ts_manager (m : MasterProcess) : Except MasterError Unit :=
  if m.ts_manager_ then Except.ok () else Except.error .NotInitializedError

/-- Modelled from the spec: the accessor catalog_manager() (master.h line 49)
returns the owned CatalogManager; while no object exists this is a
NotInitializedError-class precondition violation. -/
def catalog_manager (m : MasterProcess) : Except MasterError Unit :=
  if m.catalog_manager_ then Except.ok () else Except.error .NotInitializedError

/-- Every lifecycle transition preserves the structural invariant. -/
theorem inv_step (m : MasterProcess) (c : LifecycleCall) (h : Inv m) :
    Inv (step m c).1 := by
  obtain ⟨st, ts, cm, ph⟩ := m
  obtain ⟨h1, h2, h3⟩ := h
  cases c with
  | init catalogOk =>
      cases st <;> cases catalogOk <;>
        simp_all [step, initOp, Inv]
  | start bindOk =>
      cases st <;> cases bindOk <;>
        simp_all [step, startOp, Inv]
  | shutdown =>
      cases st <;> simp_all [step, shutdownOp, Inv]

/-- Every master reachable from the initial master by lifecycle calls
satisfies the structural invariant. -/
theorem inv_runCalls (cs : List LifecycleCall) : Inv (runCalls initialMaster cs) := by
  suffices h : ∀ m, Inv m → Inv (runCalls m cs) from h initialMaster (by decide)
  induction cs with
  | nil => intro m hm; exact hm
  | cons c cs ih => intro m hm; exact ih _ (inv_step m c hm)

/-- C1, counterexample: the claim says the master lifecycle state takes a
terminal ShutDown value besides Stopped, Initialized and Running, but the
MasterState enum of master.h (lines 54-58) contains no value distinct from
kStopped, kInitialized and kRunning. -/
theorem C1_counterexample :
    ¬ ∃ s : MasterState, s ≠ MasterState.kStopped ∧
      s ≠ MasterState.kInitialized ∧ s ≠ MasterState.kRunning := by
  rintro ⟨s, h1, h2, h3⟩
  cases s <;> simp_all

/-- C1, amended: the master lifecycle state enum takes exactly the three
pairwise distinct values Stopped, Initialized and Running; the code declares
no separate terminal ShutDown value. -/
theorem C1_amended_state_values :
    (∀ s : MasterState, s = .kStopped ∨ s = .kInitialized ∨ s = .kRunning) ∧
    decide (MasterState.kStopped = .kInitialized) = false ∧
    decide (MasterState.kStopped = .kRunning) = false ∧
    decide (MasterState.kInitialized = .kRunning) = false := by
  refine ⟨fun s => ?_, by decide, by decide, by decide⟩
  cases s <;> decide

/-- C2: Start() succeeds exactly when the state is Initialized and the bind
succeeds; from Stopped it always returns NotInitializedError and leaves the
master unchanged (state Stopped); and the only lifecycle call whose
successful transition ends in state Initialized is Init, so a successful
Start is immediately preceded by a successful Init. -/
theorem C2_start_only_after_init (m : MasterProcess) (b : Bool)
    (c : LifecycleCall) :
    ((startOp b m).2.1 = Except.ok () ↔ m.state = .Initialized ∧ b = true) ∧
    (m.state = .Stopped →
      startOp b m = (m, Except.error .NotInitializedError, [])) ∧
    (((step m c).2.1 = Except.ok () ∧ (step m c).1.state = .Initialized) →
      ∃ catalogOk, c = .init catalogOk) := by
  obtain ⟨st, ts, cm, ph⟩ := m
  cases c with
  | init catalogOk =>
      cases st <;> cases b <;> cases catalogOk <;>
        simp [startOp, step, initOp]
  | start bindOk =>
      cases st <;> cases b <;> cases bindOk <;>
        simp [startOp, step]
  | shutdown =>
      cases st <;> cases b <;>
        simp [startOp, step, shutdownOp]

/-- C2, witness: the theorem applied at the initial Stopped master, the bind
flag true and the call Init(true), discharging every hypothesis there. -/
theorem C2_start_only_after_init_witness :
    initialMaster.state = .Stopped ∧
    startOp true initialMaster =
      (initialMaster, Except.error .NotInitializedError, []) ∧
    ((step initialMaster (.init true)).2.1 = Except.ok () ∧
      (step initialMaster (.init true)).1.state = .Initialized) ∧
    (∃ catalogOk, LifecycleCall.init true = .init catalogOk) :=
  ⟨rfl,
   (C2_start_only_after_init initialMaster true (.init true)).2.1 rfl,
   ⟨rfl, rfl⟩,
   (C2_start_only_after_init initialMaster true (.init true)).2.2 ⟨rfl, rfl⟩⟩

/-- C3: from a Stopped master satisfying the structural invariant, a failed
Init first constructs NodeRegistry and then tears it down again before
returning (visible in the event trace), returns InitializationError and
leaves the master exactly as it was - state Stopped and no subsystem
constructed; and in general every lifecycle transition that returns an error
leaves the master unchanged. -/
theorem C3_failed_init_clean (m : MasterProcess) (c : LifecycleCall)
    (e : MasterError) (hInv : Inv m) :
    (m.state = .Stopped →
      (initOp false m).1 = m ∧
      (initOp false m).1.state = .Stopped ∧
      (initOp false m).2.1 = Except.error .InitializationError ∧
      (initOp false m).2.2 =
        [.construct .NodeRegistry, .teardown .NodeRegistry] ∧
      (initOp false m).1.ts_manager_ = false ∧
      (initOp false m).1.catalog_manager_ = false ∧
      (initOp false m).1.path_handlers_ = false) ∧
    ((step m c).2.1 = Except.error e → (step m c).1 = m) := by
  obtain ⟨st, ts, cm, ph⟩ := m
  obtain ⟨h1, h2, h3⟩ := hInv
  cases c with
  | init catalogOk =>
      cases st <;> cases catalogOk <;> simp_all [step, initOp]
  | start bindOk =>
      cases st <;> cases bindOk <;> simp_all [step, startOp, initOp]
  | shutdown =>
      cases st <;> simp_all [step, shutdownOp, initOp]

/-- C3, witness: the theorem applied at the initial Stopped master and the
failing call Start(true), discharging every hypothesis there. -/
theorem C3_failed_init_clean_witness :
    Inv initialMaster ∧
    initialMaster.state = .Stopped ∧
    (initOp false initialMaster).1 = initialMaster ∧
    (step initialMaster (.start true)).2.1 =
      Except.error .NotInitializedError ∧
    (step initialMaster (.start true)).1 = initialMaster :=
  ⟨by decide, rfl,
   ((C3_failed_init_clean initialMaster (.start true) .NotInitializedError
      (by decide)).1 rfl).1,
   rfl,
   (C3_failed_init_clean initialMaster (.start true) .NotInitializedError
      (by decide)).2 rfl⟩

/-- C4: under the structural invariant the accessors ts_manager() and
catalog_manager() both succeed exactly in the states at or after Initialized
(Initialized and Running); while Stopped both signal NotInitializedError,
and after a failed Init from Stopped both still fail uniformly with
NotInitializedError rather than returning a usable subsystem. -/
theorem C4_accessors_uniform (m : MasterProcess) (hInv : Inv m) :
    ((m.state = .Initialized ∨ m.state = .Running) ↔
      (ts_manager m = Except.ok () ∧ catalog_manager m = Except.ok ())) ∧
    (m.state = .Stopped →
      ts_manager m = Except.error .NotInitializedError ∧
      catalog_manager m = Except.error .NotInitializedError ∧
      ts_manager (initOp false m).1 = Except.error .NotInitializedError ∧
      catalog_manager (initOp false m).1 =
        Except.error .NotInitializedError) := by
  obtain ⟨st, ts, cm, ph⟩ := m
  obtain ⟨h1, h2, h3⟩ := hInv
  cases st <;> simp_all [ts_manager, catalog_manager, initOp]

/-- C4, witness: the theorem applied at the initial Stopped master,
discharging every hypothesis there. -/
theorem C4_accessors_uniform_witness :
    Inv initialMaster ∧
    initialMaster.state = .Stopped ∧
    ts_manager initialMaster = Except.error .NotInitializedError ∧
    catalog_manager (initOp false initialMaster).1 =
      Except.error .NotInitializedError :=
  ⟨by decide, rfl,
   ((C4_accessors_uniform initialMaster (by decide)).2 rfl).1,
   ((C4_accessors_uniform initialMaster (by decide)).2 rfl).2.2.2⟩

/-- C5: Shutdown is idempotent: a second shutdownOp right after a first one
returns the same master and produces no teardown events (no observable side
effect); one shutdownOp ends in ShutDown from Initialized or Running and
leaves the state unchanged otherwise; and whenever it leaves the state
unchanged (Stopped or ShutDown) it is a complete no-op. -/
theorem C5_shutdown_idempotent (m : MasterProcess) :
    (shutdownOp (shutdownOp m).1).1 = (shutdownOp m).1 ∧
    (shutdownOp (shutdownOp m).1).2 = [] ∧
    (shutdownOp m).1.state =
      (match m.state with
       | .Initialized => .ShutDown
       | .Running => .ShutDown
       | s => s) ∧
    ((shutdownOp m).1.state = m.state → shutdownOp m = (m, [])) := by
  obtain ⟨st, ts, cm, ph⟩ := m
  cases st <;> simp [shutdownOp]

/-- C5, witness: the theorem applied at the initial Stopped master,
discharging the no-op hypothesis there. -/
theorem C5_shutdown_idempotent_witness :
    (shutdownOp initialMaster).1.state = initialMaster.state ∧
    shutdownOp initialMaster = (initialMaster, []) :=
  ⟨rfl, (C5_shutdown_idempotent initialMaster).2.2.2 rfl⟩

/-- C6: from Initialized, Start with a failing bind returns BindError,
produces no events and leaves the master unchanged (state still
Initialized), and a retried Start with a successful bind then succeeds and
reaches Running. -/
theorem C6_bind_failure_retry (m : MasterProcess)
    (h : m.state = .Initialized) :
    startOp false m = (m, Except.error .BindError, []) ∧
    (startOp true (startOp false m).1).2.1 = Except.ok () ∧
    (startOp true (startOp false m).1).1.state = .Running := by
  obtain ⟨st, ts, cm, ph⟩ := m
  cases st <;> simp_all [startOp]

/-- C6, witness: the theorem applied at the master produced by a successful
Init from the initial master, discharging the hypothesis there. -/
theorem C6_bind_failure_retry_witness :
    (initOp true initialMaster).1.state = .Initialized ∧
    startOp false (initOp true initialMaster).1 =
      ((initOp true initialMaster).1, Except.error .BindError, []) ∧
    (startOp true
      (startOp false (initOp true initialMaster).1).1).1.state = .Running :=
  ⟨rfl,
   (C6_bind_failure_retry (initOp true initialMaster).1 rfl).1,
   (C6_bind_failure_retry (initOp true initialMaster).1 rfl).2.2⟩

/-- C7: a successful Init constructs NodeRegistry (TSManager), CatalogStore
(CatalogManager) and AdminEndpoints (MasterPathHandlers) in that order, and
Shutdown from the resulting state tears down RpcFront, AdminEndpoints,
CatalogStore, NodeRegistry: RpcFront first, followed by the exact reverse of
the construction order. -/
theorem C7_construction_teardown_order (m : MasterProcess)
    (h : m.state = .Stopped) :
    (initOp true m).2.2 =
      [.construct .NodeRegistry, .construct .CatalogStore,
       .construct .AdminEndpoints] ∧
    (shutdownOp (initOp true m).1).2 =
      [.teardown .RpcFront, .teardown .AdminEndpoints,
       .teardown .CatalogStore, .teardown .NodeRegistry] ∧
    (shutdownOp (initOp true m).1).2 =
      .teardown .RpcFront ::
        ((initOp true m).2.2.reverse.map
          (fun ev => match ev with
            | .construct s => LifeEvent.teardown s
            | .teardown s => LifeEvent.teardown s)) := by
  obtain ⟨st, ts, cm, ph⟩ := m
  cases st <;> simp_all [initOp, shutdownOp]

/-- C7, witness: the theorem applied at the initial Stopped master,
discharging the hypothesis there. -/
theorem C7_construction_teardown_order_witness :
    initialMaster.state = .Stopped ∧
    (initOp true initialMaster).2.2 =
      [.construct .NodeRegistry, .construct .CatalogStore,
       .construct .AdminEndpoints] ∧
    (shutdownOp (initOp true initialMaster).1).2 =
      [.teardown .RpcFront, .teardown .AdminEndpoints,
       .teardown .CatalogStore, .teardown .NodeRegistry] :=
  ⟨rfl,
   (C7_construction_teardown_order initialMaster rfl).1,
   (C7_construction_teardown_order initialMaster rfl).2.1⟩


/-! NodeRegistry (TSManager).  The TSManager implementation is not in the
source tree; the registry and its RegisterOrUpdate operation are modelled
from spec sections 3 and 4.2. -/

/-- Modelled from the spec: one NodeRegistry entry, identifying one tablet
server by a stable identifier, with its network address and last reported
load (spec section 3). -/
structure TSEntry where
  serverId : String
  address : String
  load : Nat
deriving DecidableEq

/-- Modelled from the spec: the NodeRegistry as its sequence of entries. -/
structure NodeRegistry where
  entries : List TSEntry
deriving DecidableEq

/-- Whether an entry carries the given server identifier. -/
def hasId (id : String) (e : TSEntry) : Bool :=
  e.serverId == id

/-- Refresh an entry in place when it carries the given identifier. -/
def updEntry (id a : String) (load : Nat) (e : TSEntry) : TSEntry :=
  if e.serverId == id then ⟨id, a, load⟩ else e

/-- Modelled from the spec: RegisterOrUpdate(serverId, address, load) of
section 4.2.  Re-registration with an identifier already present refreshes
that entry in place; a new identifier is appended, so a duplicate entry is
never created. -/
def RegisterOrUpdate (r : NodeRegistry) (serverId address : String)
    (load : Nat) : NodeRegistry :=
  if r.entries.any (hasId serverId) then
    ⟨r.entries.map (updEntry serverId address load)⟩
  else
    ⟨r.entries ++ [⟨serverId, address, load⟩]⟩

/-- An entry whose identifier differs is left alone by the refresh. -/
theorem updEntry_of_ne (id a : String) (load : Nat) (e : TSEntry)
    (h : e.serverId ≠ id) : updEntry id a load e = e := by
  simp [updEntry, h]

/-- An entry carrying the identifier is replaced by the fresh values. -/
theorem updEntry_of_eq (id a : String) (load : Nat) (e : TSEntry)
    (h : e.serverId = id) : updEntry id a load e = ⟨id, a, load⟩ := by
  simp [updEntry, h]

/-- The in-place refresh never changes the sequence of identifiers. -/
theorem update_keys (id a : String) (load : Nat) (l : List TSEntry) :
    (l.map (updEntry id a load)).map TSEntry.serverId
      = l.map TSEntry.serverId := by
  induction l with
  | nil => rfl
  | cons e l ih =>
      simp only [List.map_cons, ih, List.cons.injEq, and_true]
      by_cases h : e.serverId = id
      · rw [updEntry_of_eq id a load e h]
        exact h.symm
      · rw [updEntry_of_ne id a load e h]

/-- A list holding no entry with the given identifier filters to nothing on
that identifier. -/
theorem filter_hasId_eq_nil (id : String) (l : List TSEntry)
    (h : ¬ id ∈ l.map TSEntry.serverId) :
    l.filter (hasId id) = [] := by
  induction l with
  | nil => rfl
  | cons e l ih =>
      simp only [List.map_cons, List.mem_cons] at h
      push_neg at h
      obtain ⟨h1, h2⟩ := h
      have hne : hasId id e = false := by
        simp only [hasId, beq_eq_false_iff_ne]
        exact Ne.symm h1
      rw [List.filter_cons, hne, if_neg Bool.false_ne_true]
      exact ih h2

/-- Refreshing on an identifier no entry carries is the identity. -/
theorem update_eq_self_of_key_not_mem (id a : String) (load : Nat)
    (l : List TSEntry) (h : ¬ id ∈ l.map TSEntry.serverId) :
    l.map (updEntry id a load) = l := by
  induction l with
  | nil => rfl
  | cons e l ih =>
      simp only [List.map_cons, List.mem_cons] at h
      push_neg at h
      obtain ⟨h1, h2⟩ := h
      rw [List.map_cons, updEntry_of_ne id a load e (Ne.symm h1), ih h2]

/-- On a registry whose identifiers are pairwise distinct and contain the
given one, the in-place refresh leaves exactly one entry with that
identifier, holding the new address and load. -/
theorem filter_update_of_mem (id a : String) (load : Nat) (l : List TSEntry)
    (hnd : (l.map TSEntry.serverId).Nodup)
    (hmem : l.any (hasId id) = true) :
    (l.map (updEntry id a load)).filter (hasId id) = [⟨id, a, load⟩] := by
  induction l with
  | nil => simp at hmem
  | cons e l ih =>
      simp only [List.map_cons, List.nodup_cons] at hnd
      obtain ⟨hni, hnd⟩ := hnd
      by_cases h : e.serverId = id
      · have hl : ¬ id ∈ l.map TSEntry.serverId := h ▸ hni
        rw [List.map_cons, updEntry_of_eq id a load e h,
            update_eq_self_of_key_not_mem id a load l hl,
            List.filter_cons, filter_hasId_eq_nil id l hl]
        simp [hasId]
      · have hne : hasId id e = false := by
          simp only [hasId, beq_eq_false_iff_ne]
          exact h
        have hmem2 : l.any (hasId id) = true := by
          rw [List.any_cons, hne] at hmem
          simpa using hmem
        rw [List.map_cons, updEntry_of_ne id a load e h,
            List.filter_cons, hne, if_neg Bool.false_ne_true]
        exact ih hnd hmem2

/-- After any RegisterOrUpdate the registry contains the identifier. -/
theorem registered_after_register (r : NodeRegistry) (id a : String)
    (load : Nat) :
    (RegisterOrUpdate r id a load).entries.any (hasId id) = true := by
  unfold RegisterOrUpdate
  by_cases hmem : r.entries.any (hasId id) = true
  · rw [if_pos hmem]
    rw [List.any_eq_true] at hmem ⊢
    obtain ⟨e, he, hid⟩ := hmem
    have h : e.serverId = id := by
      simpa only [hasId, beq_iff_eq] using hid
    refine ⟨updEntry id a load e, List.mem_map_of_mem _ he, ?_⟩
    rw [updEntry_of_eq id a load e h]
    simp [hasId]
  · rw [if_neg hmem]
    rw [List.any_eq_true]
    exact ⟨⟨id, a, load⟩, by simp, by simp [hasId]⟩

/-- RegisterOrUpdate preserves distinctness of the identifiers. -/
theorem keys_nodup_after_register (r : NodeRegistry) (id a : String)
    (load : Nat) (h : (r.entries.map TSEntry.serverId).Nodup) :
    ((RegisterOrUpdate r id a load).entries.map TSEntry.serverId).Nodup := by
  unfold RegisterOrUpdate
  by_cases hmem : r.entries.any (hasId id) = true
  · rw [if_pos hmem]
    show ((r.entries.map (updEntry id a load)).map TSEntry.serverId).Nodup
    rw [update_keys]
    exact h
  · rw [if_neg hmem]
    show ((r.entries ++ [(⟨id, a, load⟩ : TSEntry)]).map TSEntry.serverId).Nodup
    rw [List.map_append]
    have hni : ¬ id ∈ r.entries.map TSEntry.serverId := by
      intro hin
      rw [List.mem_map] at hin
      obtain ⟨e, he, hid⟩ := hin
      apply hmem
      rw [List.any_eq_true]
      exact ⟨e, he, by simp [hasId, hid]⟩
    simp [List.nodup_append, h, hni]

/-- C8: on any registry whose server identifiers are pairwise distinct,
registering the same identifier twice - with possibly different addresses
and loads - leaves exactly one entry for that identifier, and that entry
carries the most recently reported address and load; the second registration
adds no entry at all. -/
theorem C8_register_idempotent (r : NodeRegistry) (id a1 a2 : String)
    (l1 l2 : Nat) (hnd : (r.entries.map TSEntry.serverId).Nodup) :
    ((RegisterOrUpdate (RegisterOrUpdate r id a1 l1) id a2 l2).entries.filter
      (hasId id)) = [⟨id, a2, l2⟩] ∧
    (RegisterOrUpdate (RegisterOrUpdate r id a1 l1) id a2 l2).entries.length
      = (RegisterOrUpdate r id a1 l1).entries.length := by
  have h1 := registered_after_register r id a1 l1
  have h2 := keys_nodup_after_register r id a1 l1 hnd
  obtain ⟨r1, hr1⟩ : ∃ r1, RegisterOrUpdate r id a1 l1 = r1 := ⟨_, rfl⟩
  rw [hr1] at h1 h2 ⊢
  have hsecond : RegisterOrUpdate r1 id a2 l2 =
      ⟨r1.entries.map (updEntry id a2 l2)⟩ := by
    unfold RegisterOrUpdate
    rw [if_pos h1]
  rw [hsecond]
  exact ⟨filter_update_of_mem id a2 l2 r1.entries h2 h1, by simp⟩

/-- Sample identifier for the witness. -/
def demoId : String := "ts-1"

/-- First reported address. -/
def demoAddrOne : String := "10.0.0.1"

/-- Second reported address. -/
def demoAddrTwo : String := "10.0.0.2"

/-- C8, witness: the theorem applied at the empty registry with a concrete
identifier, discharging the distinctness hypothesis there. -/
theorem C8_register_idempotent_witness :
    ((NodeRegistry.mk []).entries.map TSEntry.serverId).Nodup ∧
    ((RegisterOrUpdate (RegisterOrUpdate ⟨[]⟩ demoId demoAddrOne 1)
        demoId demoAddrTwo 2).entries.filter
      (hasId demoId)) = [⟨demoId, demoAddrTwo, 2⟩] :=
  ⟨by simp,
   (C8_register_idempotent ⟨[]⟩ demoId demoAddrOne demoAddrTwo 1 2
     (by simp)).1⟩

/-! The sample client program, sample.cc, embedded directly from the
source. -/

/-- The client Status values sample.cc distinguishes: OK, NotFound
(swallowed by DoesTableExist) and the remaining error classes it passes
through unchanged. -/
inductive Status
  | OK
  | NotFound (msg : String)
  | IOError (msg : String)
  | TimedOut (msg : String)
  | RuntimeError (msg : String)
deriving DecidableEq

/-- Status::ok(): true exactly on OK. -/
def Status.ok : Status → Bool
  | .OK => true
  | _ => false

/-- Status::IsNotFound(): true exactly on NotFound. -/
def Status.IsNotFound : Status → Bool
  | .NotFound _ => true
  | _ => false

/-- DoesTableExist from sample.cc lines 81-93.  The result of
client->OpenTable is abstracted as the input status; the returned pair is
the Status DoesTableExist returns and the final content of the out-parameter
exists, with none meaning it was never assigned. -/
def DoesTableExist (openTableStatus : Status) : Status × Option Bool :=
  if openTableStatus.ok then (openTableStatus, some true)
  else if openTableStatus.IsNotFound then (Status.OK, some false)
  else (openTableStatus, none)

/-- C9: when OpenTable succeeds, DoesTableExist assigns true to exists and
returns OK (the OK status it got back); when OpenTable returns NotFound it
assigns false and returns OK, swallowing the NotFound; on every other status
it returns that status unchanged and never assigns exists. -/
theorem C9_does_table_exist (s : Status) :
    (s.ok = true → DoesTableExist s = (Status.OK, some true)) ∧
    (s.IsNotFound = true → DoesTableExist s = (Status.OK, some false)) ∧
    (s.ok = false → s.IsNotFound = false → DoesTableExist s = (s, none)) := by
  cases s <;> simp [DoesTableExist, Status.ok, Status.IsNotFound]

/-- Sample message used by the witness. -/
def demoMsg : String := "boom"

/-- C9, witness: the theorem applied at each of the three status classes,
discharging the hypothesis of each branch at its concrete input. -/
theorem C9_does_table_exist_witness :
    Status.ok .OK = true ∧
    DoesTableExist .OK = (Status.OK, some true) ∧
    Status.IsNotFound (.NotFound demoMsg) = true ∧
    DoesTableExist (.NotFound demoMsg) = (Status.OK, some false) ∧
    Status.ok (.IOError demoMsg) = false ∧
    Status.IsNotFound (.IOError demoMsg) = false ∧
    DoesTableExist (.IOError demoMsg) = (.IOError demoMsg, none) :=
  ⟨rfl, (C9_does_table_exist .OK).1 rfl, rfl,
   (C9_does_table_exist (.NotFound demoMsg)).2.1 rfl, rfl, rfl,
   (C9_does_table_exist (.IOError demoMsg)).2.2 rfl rfl⟩

/-- Column types used by CreateSchema. -/
inductive DataType
  | INT32
  | INT64
  | STRING
deriving DecidableEq

/-- One column of the schema: name, type, NotNull flag. -/
structure ColumnSchema where
  name : String
  type : DataType
  notNull : Bool
deriving DecidableEq

/-- A schema: its columns and the names of the primary key columns. -/
structure Schema where
  columns : List ColumnSchema
  primaryKey : List String
deriving DecidableEq

/-- CreateSchema from sample.cc lines 63-79: five NotNull columns and the
four-column primary key (queue, op_id_term, op_id_index, op_id_offset). -/
def CreateSchema : Schema :=
  ⟨[⟨"queue", .INT32, true⟩,
    ⟨"op_id_term", .INT64, true⟩,
    ⟨"op_id_index", .INT64, true⟩,
    ⟨"op_id_offset", .INT32, true⟩,
    ⟨"val", .STRING, true⟩],
   ["queue", "op_id_term", "op_id_index", "op_id_offset"]⟩

/-- The value string built by InsertRows (sample.cc lines 129-132): 100
characters, the i-th being the letter a shifted by i mod 26. -/
def sampleVal : String :=
  String.mk ((List.range 100).map
    (fun i => Char.ofNat (Char.toNat (Char.ofNat 97) + i % 26)))

/-- One row of the sample table. -/
structure Row where
  queue : Int
  op_id_term : Int
  op_id_index : Int
  op_id_offset : Int
  val : String
deriving DecidableEq

/-- The row InsertRows applies at loop index i (sample.cc lines 137-145):
queue is i mod 6, the three op_id columns are 0, val is the fixed string. -/
def insertRowAt (i : Nat) : Row :=
  ⟨Int.ofNat (i % 6), 0, 0, 0, sampleVal⟩

/-- InsertRows from sample.cc lines 124-149, as the list of rows applied to
the session for num_rows loop iterations. -/
def InsertRows (num_rows : Nat) : List Row :=
  (List.range num_rows).map insertRowAt

/-- Projection of a row onto the four primary key columns of CreateSchema,
in schema order: (queue, op_id_term, op_id_index, op_id_offset). -/
def primaryKeyOf (r : Row) : Int × Int × Int × Int :=
  (r.queue, r.op_id_term, r.op_id_index, r.op_id_offset)

/-- C10: for every num_rows and i below it, the i-th row applied by
InsertRows has queue i mod 6, all op_id columns 0 and the fixed
100-character val; CreateSchema declares the primary key columns
(queue, op_id_term, op_id_index, op_id_offset); and the rows take at most 6
distinct primary-key values regardless of num_rows. -/
theorem C10_rows_six_keys (num_rows i : Nat) (h : i < num_rows) :
    (InsertRows num_rows)[i]? =
      some ⟨Int.ofNat (i % 6), 0, 0, 0, sampleVal⟩ ∧
    sampleVal.length = 100 ∧
    CreateSchema.primaryKey =
      ["queue", "op_id_term", "op_id_index", "op_id_offset"] ∧
    ((InsertRows num_rows).map primaryKeyOf).toFinset.card ≤ 6 := by
  refine ⟨?_, rfl, rfl, ?_⟩
  · simp [InsertRows, insertRowAt, List.getElem?_range, h]
  · have hsub : ((InsertRows num_rows).map primaryKeyOf).toFinset ⊆
        (Finset.range 6).image
          (fun q => (Int.ofNat q, (0 : Int), (0 : Int), (0 : Int))) := by
      intro x hx
      simp only [List.mem_toFinset, List.mem_map, InsertRows,
        List.mem_range] at hx
      obtain ⟨r, ⟨j, hj, rfl⟩, rfl⟩ := hx
      simp only [Finset.mem_image, Finset.mem_range]
      exact ⟨j % 6, Nat.mod_lt j (by norm_num), rfl⟩
    calc ((InsertRows num_rows).map primaryKeyOf).toFinset.card
        ≤ ((Finset.range 6).image
            (fun q => (Int.ofNat q, (0 : Int), (0 : Int), (0 : Int)))).card :=
          Finset.card_le_card hsub
      _ ≤ (Finset.range 6).card := Finset.card_image_le
      _ = 6 := Finset.card_range 6

/-- C10, witness: the theorem applied at num_rows 7 and index 3, discharging
the bound hypothesis there. -/
theorem C10_rows_six_keys_witness :
    3 < 7 ∧
    (InsertRows 7)[3]? = some ⟨Int.ofNat (3 % 6), 0, 0, 0, sampleVal⟩ ∧
    ((InsertRows 7).map primaryKeyOf).toFinset.card ≤ 6 :=
  ⟨by decide, (C10_rows_six_keys 7 3 (by decide)).1,
   (C10_rows_six_keys 7 3 (by decide)).2.2.2⟩

end Kudu
